import Mathlib

/-!
Verification of the video-automation editing core: the Timeline Builder
(`buildTimeline` in the Remotion app's `timeline.ts`), the Transition Curve
Engine (`evaluateTransitionStyle` in `Transitions.tsx`) and the Audio Envelope
Scheduler (`SfxLayer.tsx`).  Seconds and frame rates are embedded as rationals
(`ℚ`), frame counts as integers (`ℤ`); JavaScript's `Math.round` (half toward
`+∞`) is Mathlib's `round`, `Math.floor` is `Int.floor`.  Decibel-to-linear
conversion and `Math.log10` are real-valued, so the audio layer is embedded
over `ℝ`.
-/

attribute [local semireducible] Rat.mul Rat.add Rat.sub Rat.inv

namespace VideoAutomation

/-- Transition type tokens.  Union of the two `TransitionType` declarations in
`src/remotion-app/src/types.ts` (the normalized union
`cut | fadeCamera | slideWhoosh` and the legacy union
`cut | crossfade | slide | zoom | scale | rotate | blur`), which is also the
input enum of the plan schema. -/
inductive TransitionType where
  | cut
  | fadeCamera
  | slideWhoosh
  | crossfade
  | slide
  | zoom
  | scale
  | rotate
  | blur
deriving DecidableEq

/-- `TransitionDirection` from `types.ts`. -/
inductive TransitionDirection where
  | left
  | right
  | up
  | down
deriving DecidableEq

/-- `TransitionPlan` from `types.ts`: a typed transition with optional duration
(seconds), direction, intensity and sound-effect reference. -/
structure TransitionPlan where
  type : TransitionType
  duration : Option ℚ := none
  direction : Option TransitionDirection := none
  intensity : Option ℚ := none
  sfx : Option String := none
deriving DecidableEq

/-- `SegmentKind` from `types.ts`. -/
inductive SegmentKind where
  | normal
  | broll
deriving DecidableEq

/-- `SegmentPlan` from `types.ts` (fields relevant to the timeline builder;
the free-form `metadata` map is omitted, it never affects placement). -/
structure SegmentPlan where
  id : String
  kind : Option SegmentKind := none
  sourceStart : Option ℚ := none
  duration : ℚ
  transitionIn : Option TransitionPlan := none
  transitionOut : Option TransitionPlan := none
  playbackRate : Option ℚ := none
  silenceAfter : Option Bool := none
deriving DecidableEq

/-- `TimelineSegment` from `timeline.ts` (src/unnamed/part_004): a placed
segment.  The source field `from` is a Lean keyword and is embedded as
`fromFrame` (the spec calls it `startFrame`); `duration` is in frames. -/
structure TimelineSegment where
  segment : SegmentPlan
  fromFrame : ℤ
  duration : ℤ
  transitionInFrames : ℤ
  transitionOutFrames : ℤ
  audioCrossfade : Bool
deriving DecidableEq

/-- `toFrames` from `timeline.ts`: `Math.max(0, Math.round(seconds * fps))`. -/
def toFrames (seconds fps : ℚ) : ℤ :=
  max 0 (round (seconds * fps))

/-- `resolveTransitionDuration` from `timeline.ts` (src/unnamed/part_004,
lines 41–54): a missing transition resolves to `0`; otherwise
`clamp(toFrames(duration ?? fallbackSeconds), 0, Math.floor(maxDurationFrames))`.
Note that the source has no special case for the `cut` type. -/
def resolveTransitionDuration (transition : Option TransitionPlan)
    (fps fallbackSeconds : ℚ) (maxDurationFrames : ℚ) : ℤ :=
  match transition with
  | none => 0
  | some t =>
    let targetSeconds := t.duration.getD fallbackSeconds
    let frames := toFrames targetSeconds fps
    min (max frames 0) ⌊maxDurationFrames⌋

/-- One iteration of the `segments.forEach` loop in `buildTimeline`
(src/unnamed/part_004, lines 63–127).  `prevSeg` is `segments[index-1]`
(`none` at index 0), `next` is `segments[index+1]`, `prevPlaced` is
`timeline[index-1]`, i.e. the record pushed by the previous iteration. -/
def buildSegment (fps fallbackTransitionSeconds : ℚ)
    (prevSeg : Option SegmentPlan) (next : Option SegmentPlan)
    (prevPlaced : Option TimelineSegment) (segment : SegmentPlan) :
    TimelineSegment :=
  let durationFrames : ℤ := max 1 (toFrames segment.duration fps)
  let maxTransitionFrames : ℚ := (durationFrames : ℚ) / 2
  let allowIn : Bool :=
    match prevSeg with
    | none => false
    | some p => p.silenceAfter != some false
  let allowOut : Bool := segment.silenceAfter != some false
  let strippedIn : Option TransitionPlan :=
    if allowIn then segment.transitionIn else none
  let effectiveOut : Option TransitionPlan :=
    if allowOut then
      match segment.transitionOut with
      | some t => some t
      | none =>
        match next with
        | some n => n.transitionIn
        | none => none
    else none
  let segmentForTimeline : SegmentPlan :=
    { segment with transitionIn := strippedIn, transitionOut := effectiveOut }
  let transitionInFrames : ℤ :=
    if allowIn then
      resolveTransitionDuration segmentForTimeline.transitionIn fps
        fallbackTransitionSeconds maxTransitionFrames
    else 0
  let transitionOutFrames : ℤ :=
    if allowOut then
      resolveTransitionDuration segmentForTimeline.transitionOut fps
        fallbackTransitionSeconds maxTransitionFrames
    else 0
  match prevPlaced with
  | none =>
    { segment := segmentForTimeline
      fromFrame := 0
      duration := durationFrames
      transitionInFrames := transitionInFrames
      transitionOutFrames := transitionOutFrames
      audioCrossfade := false }
  | some previous =>
    let overlap := max previous.transitionOutFrames transitionInFrames
    { segment := segmentForTimeline
      fromFrame := previous.fromFrame + previous.duration - overlap
      duration := durationFrames
      transitionInFrames := transitionInFrames
      transitionOutFrames := transitionOutFrames
      audioCrossfade := allowIn }

/-- Recursive form of the `segments.forEach` loop of `buildTimeline`,
threading the previous input segment and the previously pushed record. -/
def buildTimelineAux (fps fallbackTransitionSeconds : ℚ) :
    Option SegmentPlan → Option TimelineSegment → List SegmentPlan →
    List TimelineSegment
  | _, _, [] => []
  | prevSeg, prevPlaced, segment :: rest =>
    let placed :=
      buildSegment fps fallbackTransitionSeconds prevSeg rest.head? prevPlaced
        segment
    placed ::
      buildTimelineAux fps fallbackTransitionSeconds (some segment)
        (some placed) rest

/-- `buildTimeline` from `timeline.ts` (src/unnamed/part_004, lines 56–130). -/
def buildTimeline (segments : List SegmentPlan)
    (fps fallbackTransitionSeconds : ℚ) : List TimelineSegment :=
  buildTimelineAux fps fallbackTransitionSeconds none none segments

/-- `getPlanDuration` from `timeline.ts` (src/unnamed/part_004, lines
132–139): `last.from + last.duration`, `0` for an empty timeline. -/
def getPlanDuration (timeline : List TimelineSegment) : ℤ :=
  match timeline.getLast? with
  | none => 0
  | some last => last.fromFrame + last.duration

/-- Scenario input of C2: three 1-second segments, no transitions,
`silenceAfter` left at its default. -/
def c2Segments : List SegmentPlan :=
  [{ id := "s0", duration := 1 }, { id := "s1", duration := 1 },
   { id := "s2", duration := 1 }]

/-- Input of C3's counterexample: a boundary carrying a `cut` transition with
an explicit 0.5-second duration. -/
def c3Segments : List SegmentPlan :=
  [{ id := "s0", duration := 1,
     transitionOut := some { type := TransitionType.cut, duration := some (1/2) } },
   { id := "s1", duration := 1 }]

/-- Input used by C1's witness: two plain segments with a shared crossfade. -/
def c1Segments : List SegmentPlan :=
  [{ id := "s0", duration := 2,
     transitionOut := some { type := TransitionType.crossfade, duration := some (1/2) } },
   { id := "s1", duration := 2 }]

/-- Input of C4's counterexample: a 10-second segment whose outgoing
transition requests 5 seconds, followed by a 1-second segment. -/
def c4Segments : List SegmentPlan :=
  [{ id := "s0", duration := 10,
     transitionOut := some { type := TransitionType.crossfade, duration := some 5 } },
   { id := "s1", duration := 1 }]

/-- Input of C5's counterexample: a single-frame segment followed by a
segment whose incoming transition requests 5 seconds. -/
def c5Segments : List SegmentPlan :=
  [{ id := "s0", duration := 1/30 },
   { id := "s1", duration := 10,
     transitionIn := some { type := TransitionType.crossfade, duration := some 5 } }]

/-- Input used by C5's witness: modest transitions, nonnegative placement. -/
def c5WitnessSegments : List SegmentPlan :=
  [{ id := "s0", duration := 2,
     transitionOut := some { type := TransitionType.crossfade, duration := some (1/2) } },
   { id := "s1", duration := 2,
     transitionIn := some { type := TransitionType.crossfade, duration := some (1/2) } }]

/-- Input used by C6's witness: the first segment forces a hard cut with
`silenceAfter = false` although both sides request transitions. -/
def c6Segments : List SegmentPlan :=
  [{ id := "s0", duration := 2, silenceAfter := some false,
     transitionOut := some { type := TransitionType.crossfade, duration := some (1/2) } },
   { id := "s1", duration := 2,
     transitionIn := some { type := TransitionType.crossfade, duration := some (1/2) } }]

/-- Phase argument of the Transition Curve Engine (`'in' | 'out'` in
`Transitions.tsx`). -/
inductive TransitionPhase where
  | phaseIn
  | phaseOut
deriving DecidableEq

/-- `TransitionStyle` from `Transitions.tsx`: every field optional.  The
source's `filter: "blur(<r>px)"` string is embedded as the blur radius
`blurRadius`. -/
structure TransitionStyle where
  translateX : Option ℚ := none
  translateY : Option ℚ := none
  scale : Option ℚ := none
  rotate : Option ℚ := none
  opacity : Option ℚ := none
  blurRadius : Option ℚ := none
deriving DecidableEq

/-- `clamp01` from `Transitions.tsx`. -/
def clamp01 (value : ℚ) : ℚ :=
  min (max value 0) 1

/-- `resolveSlideOffset` from `Transitions.tsx` (lines 20–37). -/
def resolveSlideOffset (direction : Option TransitionDirection)
    (width height : ℚ) : ℚ × ℚ :=
  match direction with
  | some TransitionDirection.left => (-width, 0)
  | some TransitionDirection.right => (width, 0)
  | some TransitionDirection.up => (0, -height)
  | some TransitionDirection.down => (0, height)
  | none => (0, 0)

/-- `evaluateTransitionStyle` from `Transitions.tsx` (lines 39–125),
parametric in the fixed easing curve `easeInOut` (the source's
`Easing.bezier(0.4, 0, 0.2, 1)`, library code outside this repository).
Types with no switch case (`fadeCamera`, `slideWhoosh`) fall through to the
default empty style, exactly as in the source. -/
def evaluateTransitionStyle (easeInOut : ℚ → ℚ)
    (transition : Option TransitionPlan) (progress width height : ℚ)
    (phase : TransitionPhase) : TransitionStyle :=
  match transition with
  | none => {}
  | some t =>
    if t.type = TransitionType.cut then {}
    else
      let normalized :=
        if phase = TransitionPhase.phaseOut then 1 - progress else progress
      let eased := easeInOut (clamp01 normalized)
      match t.type with
      | TransitionType.crossfade =>
        { opacity :=
            some (if phase = TransitionPhase.phaseIn then eased else 1 - eased) }
      | TransitionType.slide =>
        let offset := resolveSlideOffset t.direction width height
        if phase = TransitionPhase.phaseIn then
          { translateX := some (offset.1 * (1 - eased))
            translateY := some (offset.2 * (1 - eased))
            opacity := some (max eased (3/4)) }
        else
          { translateX := some (offset.1 * eased)
            translateY := some (offset.2 * eased)
            opacity := some (1 - eased * (1/5)) }
      | TransitionType.zoom =>
        let intensity := t.intensity.getD (9/50)
        if phase = TransitionPhase.phaseIn then
          { scale := some (1 + intensity * (1 - eased)), opacity := some eased }
        else
          { scale := some (1 + intensity * eased)
            opacity := some (1 - eased * (1/4)) }
      | TransitionType.scale =>
        let intensity := t.intensity.getD (3/25)
        { scale :=
            some (if phase = TransitionPhase.phaseIn then
                    1 - intensity * (1 - eased)
                  else 1 - intensity * eased)
          opacity :=
            some (if phase = TransitionPhase.phaseIn then eased
                  else 1 - eased * (1/5)) }
      | TransitionType.rotate =>
        let degrees := (t.intensity.getD (1/10)) * 25
        if phase = TransitionPhase.phaseIn then
          { rotate := some (-degrees * (1 - eased)), opacity := some eased }
        else
          { rotate := some (degrees * eased), opacity := some (1 - eased * (1/4)) }
      | TransitionType.blur =>
        let maxBlur := (t.intensity.getD (1/2)) * 12
        if phase = TransitionPhase.phaseIn then
          { blurRadius := some ((1 - eased) * maxBlur), opacity := some eased }
        else
          { blurRadius := some (eased * maxBlur)
            opacity := some (1 - eased * (3/10)) }
      | _ => {}

/-- The effective opacity multiplier of a style, as composed in
`useSegmentTransition`: `enter.opacity ?? 1`. -/
def TransitionStyle.effectiveOpacity (s : TransitionStyle) : ℚ :=
  s.opacity.getD 1

/-- Modelled from the spec: the fixed ease-in/ease-out shaping curve.  Its
implementation, `Easing.bezier(0.4, 0, 0.2, 1)` of the remotion library, is
not part of this repository; any cubic-bezier easing fixes `0 ↦ 0` and
`1 ↦ 1`, and this computable cubic `3t² − 2t³` is a concrete representative
with those endpoint values, used only to instantiate the parametric engine
at concrete inputs. -/
def easeInOutModel (t : ℚ) : ℚ :=
  3 * t ^ 2 - 2 * t ^ 3

/-- A `cut` transition used by C7's witness. -/
def cutDemo : TransitionPlan :=
  { type := TransitionType.cut, duration := some (3/4) }

/-- A `crossfade` transition used by C8's witness. -/
def crossfadeDemo : TransitionPlan :=
  { type := TransitionType.crossfade, duration := some (3/4) }

/-- A `fadeCamera` transition (the normalized fade token of the current
`TransitionType` union), used by C8's counterexample. -/
def fadeCameraDemo : TransitionPlan :=
  { type := TransitionType.fadeCamera, duration := some (3/4) }

/-- `dbToGain` from `SfxLayer.tsx` (line 90): `Math.pow(10, db / 20)`. -/
noncomputable def dbToGain (db : ℝ) : ℝ :=
  (10 : ℝ) ^ (db / 20)

/-- The `audio` part of `RuntimeConfig` from `config.ts`, as consumed by
`SfxLayer.tsx`. -/
structure RuntimeAudioConfig where
  voiceDuckDb : ℝ
  sfxBaseGainDb : ℝ

/-- `SfxEvent` from `SfxLayer.tsx` (lines 92–99). -/
structure SfxEvent where
  id : String
  startFrame : ℤ
  durationInFrames : ℤ
  src : String
  gainDb : Option ℝ := none
  ducking : Bool

/-- `buildVolumeEnvelope` from `SfxLayer.tsx` (lines 194–216): the per-frame
gain function of one scheduled sound effect.  `frame` is the frame offset
within the event. -/
noncomputable def buildVolumeEnvelope (event : SfxEvent)
    (audioConfig : RuntimeAudioConfig) (fps : ℝ) (frame : ℝ) : ℝ :=
  let baseDb := event.gainDb.getD audioConfig.sfxBaseGainDb
  let baseGain := min (dbToGain baseDb) (dbToGain (-6))
  let duckGain := dbToGain audioConfig.voiceDuckDb
  let attackFrames : ℤ := max 1 (round (fps * (3/10)))
  let releaseFrames : ℤ := max 1 (round (fps * (3/10)))
  let fadeInFrames : ℤ := max 1 (round (fps * (3/25)))
  let fadeOutFrames : ℤ := max 1 (round (fps * (4/25)))
  let duckProgress := min (frame / (attackFrames : ℝ)) 1
  let fadeIn := min (frame / (fadeInFrames : ℝ)) 1
  let fadeOut := min (((event.durationInFrames : ℝ) - frame) / (fadeOutFrames : ℝ)) 1
  let release := min (((event.durationInFrames : ℝ) - frame) / (releaseFrames : ℝ)) 1
  let duckMultiplier :=
    if event.ducking then duckGain + (1 - duckGain) * duckProgress else 1
  let amplitude :=
    baseGain * duckMultiplier * fadeIn * max 0 fadeOut * max 0 release
  min amplitude (dbToGain (-6))

/-- `HighlightPlan` from `types.ts`, restricted to the fields the SFX layer
reads (`start`, `duration`, `sfx`, `gain`, `volume`, `ducking`). -/
structure HighlightPlan where
  id : String
  start : ℝ
  duration : ℝ
  sfx : Option String := none
  gain : Option ℝ := none
  volume : Option ℝ := none
  ducking : Option Bool := none

/-- The `Pick<SfxEvent, 'startFrame' | 'durationInFrames' | 'gainDb' |
'ducking'>` record returned by `eventFromHighlight`. -/
structure HighlightTimings where
  startFrame : ℤ
  durationInFrames : ℤ
  gainDb : Option ℝ
  ducking : Bool

/-- `eventFromHighlight` from `SfxLayer.tsx` (lines 101–118): the legacy
`volume` field (0–1) is converted to decibels via `20 * Math.log10(volume)`
only when no explicit `gain` is present and `volume` is a number strictly
greater than 0. -/
noncomputable def eventFromHighlight (highlight : HighlightPlan) (fps : ℝ) :
    HighlightTimings :=
  let startFrame : ℤ := round (highlight.start * fps)
  let durationInFrames : ℤ := max 1 (round (highlight.duration * fps))
  let gainDb : Option ℝ :=
    match highlight.gain with
    | some g => some g
    | none =>
      match highlight.volume with
      | some v => if 0 < v then some (20 * Real.logb 10 v) else none
      | none => none
  { startFrame := startFrame
    durationInFrames := durationInFrames
    gainDb := gainDb
    ducking := highlight.ducking != some false }

/-- Highlight used by C10's witness: no explicit gain, legacy volume 0. -/
def c10Highlight : HighlightPlan :=
  { id := "h0", start := 2, duration := 1, sfx := some "ui/pop.mp3",
    volume := some 0 }

end VideoAutomation

namespace VideoAutomation

/-- A segment placed after a previous one starts at
`previous.from + previous.duration - max(previous.transitionOutFrames,
transitionInFrames)`, where `transitionInFrames` is the value stored in the
new record. -/
lemma buildSegment_fromFrame (fps fallbackTransitionSeconds : ℚ)
    (prevSeg next : Option SegmentPlan) (p : TimelineSegment)
    (s : SegmentPlan) :
    (buildSegment fps fallbackTransitionSeconds prevSeg next (some p) s).fromFrame =
      p.fromFrame + p.duration -
        max p.transitionOutFrames
          (buildSegment fps fallbackTransitionSeconds prevSeg next (some p)
              s).transitionInFrames := by
  rfl

/-- The first placed segment starts at frame 0. -/
lemma buildSegment_fromFrame_none (fps fallbackTransitionSeconds : ℚ)
    (prevSeg next : Option SegmentPlan) (s : SegmentPlan) :
    (buildSegment fps fallbackTransitionSeconds prevSeg next none s).fromFrame = 0 := by
  rfl

/-- Every step of the loop places the new segment relative to the record
pushed by the previous iteration. -/
lemma chain_buildTimelineAux (fps fallbackTransitionSeconds : ℚ)
    (segs : List SegmentPlan) :
    ∀ (prevSeg : Option SegmentPlan) (p : TimelineSegment),
      List.Chain
        (fun p q => q.fromFrame =
          p.fromFrame + p.duration -
            max p.transitionOutFrames q.transitionInFrames)
        p (buildTimelineAux fps fallbackTransitionSeconds prevSeg (some p) segs) := by
  induction segs with
  | nil => intro prevSeg p; exact List.Chain.nil
  | cons s rest ih =>
    intro prevSeg p
    exact List.Chain.cons
      (buildSegment_fromFrame fps fallbackTransitionSeconds prevSeg rest.head? p s)
      (ih (some s) _)

/-- The placement recurrence holds between every two consecutive placed
segments of `buildTimeline`. -/
lemma chain'_buildTimeline (segments : List SegmentPlan)
    (fps fallbackTransitionSeconds : ℚ) :
    List.Chain'
      (fun p q => q.fromFrame =
        p.fromFrame + p.duration - max p.transitionOutFrames q.transitionInFrames)
      (buildTimeline segments fps fallbackTransitionSeconds) := by
  cases segments with
  | nil => exact List.chain'_nil
  | cons s rest =>
    exact chain_buildTimelineAux fps fallbackTransitionSeconds rest (some s) _

/-- C1 (confirmed): `buildTimeline` places the first segment at start frame 0,
and for every adjacent pair of placed segments, the next start frame equals
the previous start frame plus the previous duration minus
`max(previous.transitionOutFrames, next.transitionInFrames)`. -/
theorem buildTimeline_placement (segments : List SegmentPlan)
    (fps fallbackTransitionSeconds : ℚ) :
    (∀ h0 : 0 < (buildTimeline segments fps fallbackTransitionSeconds).length,
      ((buildTimeline segments fps fallbackTransitionSeconds).get ⟨0, h0⟩).fromFrame = 0) ∧
    (∀ (i : ℕ)
        (hi : i + 1 < (buildTimeline segments fps fallbackTransitionSeconds).length),
      ((buildTimeline segments fps fallbackTransitionSeconds).get ⟨i + 1, hi⟩).fromFrame =
        ((buildTimeline segments fps fallbackTransitionSeconds).get
            ⟨i, Nat.lt_of_succ_lt hi⟩).fromFrame +
          ((buildTimeline segments fps fallbackTransitionSeconds).get
              ⟨i, Nat.lt_of_succ_lt hi⟩).duration -
          max
            ((buildTimeline segments fps fallbackTransitionSeconds).get
                ⟨i, Nat.lt_of_succ_lt hi⟩).transitionOutFrames
            ((buildTimeline segments fps fallbackTransitionSeconds).get
                ⟨i + 1, hi⟩).transitionInFrames) := by
  constructor
  · intro h0
    cases segments with
    | nil => simp [buildTimeline, buildTimelineAux] at h0
    | cons s rest =>
      exact buildSegment_fromFrame_none fps fallbackTransitionSeconds none
        rest.head? s
  · intro i hi
    have h := List.chain'_iff_get.mp
      (chain'_buildTimeline segments fps fallbackTransitionSeconds) i (by omega)
    exact h

/-- Witness for C1 at a concrete two-segment timeline. -/
theorem buildTimeline_placement_witness :
    ((buildTimeline c1Segments 30 (1/2)).get ⟨0, by decide⟩).fromFrame = 0 ∧
    ((buildTimeline c1Segments 30 (1/2)).get ⟨1, by decide⟩).fromFrame =
      ((buildTimeline c1Segments 30 (1/2)).get ⟨0, by decide⟩).fromFrame +
        ((buildTimeline c1Segments 30 (1/2)).get ⟨0, by decide⟩).duration -
        max ((buildTimeline c1Segments 30 (1/2)).get ⟨0, by decide⟩).transitionOutFrames
          ((buildTimeline c1Segments 30 (1/2)).get ⟨1, by decide⟩).transitionInFrames :=
  ⟨(buildTimeline_placement c1Segments 30 (1/2)).1 (by decide),
   (buildTimeline_placement c1Segments 30 (1/2)).2 0 (by decide)⟩

/-- C2 (counterexample): three 1-second segments at 30fps with fallback 0.5s
and no per-segment transitions do NOT produce a total duration of 60 frames. -/
theorem getPlanDuration_c2_scenario_ne_60 :
    getPlanDuration (buildTimeline c2Segments 30 (1/2)) ≠ 60 := by
  decide

/-- C2 (amended): in that scenario the total duration is 90 frames — no
overlaps are produced, because an absent transition resolves to 0 frames and
the fallback duration only applies when a transition object exists without an
explicit duration. -/
theorem getPlanDuration_c2_scenario_eq_90 :
    getPlanDuration (buildTimeline c2Segments 30 (1/2)) = 90 := by
  decide

/-- C3 (counterexample): a `cut` transition with duration 0.5s at 30fps
resolves to 15 frames, not 0, on the segment boundary. -/
theorem cut_transition_resolves_nonzero :
    (Option.map TimelineSegment.transitionOutFrames
        ((buildTimeline c3Segments 30 (3/4)).get? 0)) = some 15 ∧
    (15 : ℤ) ≠ 0 := by
  constructor
  · decide
  · decide

/-- A resolved transition frame count is nonnegative and bounded by the floor
of the clamp ceiling, whenever the ceiling is nonnegative. -/
lemma resolveTransitionDuration_bounds (transition : Option TransitionPlan)
    (fps fallbackSeconds maxDurationFrames : ℚ) (h : 0 ≤ maxDurationFrames) :
    0 ≤ resolveTransitionDuration transition fps fallbackSeconds maxDurationFrames ∧
    resolveTransitionDuration transition fps fallbackSeconds maxDurationFrames ≤
      ⌊maxDurationFrames⌋ := by
  cases transition with
  | none =>
    exact ⟨le_refl 0, Int.le_floor.mpr (by exact_mod_cast h)⟩
  | some t =>
    refine ⟨le_min (le_max_right _ _) (Int.le_floor.mpr (by exact_mod_cast h)), ?_⟩
    exact min_le_right _ _

/-- An integer below `⌊d/2⌋` is at most half of `d`. -/
lemma two_mul_le_of_le_floor_half {x d : ℤ} (h : x ≤ ⌊((d : ℚ))/2⌋) :
    2 * x ≤ d := by
  have h1 : (x : ℚ) ≤ ((d : ℚ))/2 := by
    calc (x : ℚ) ≤ ((⌊((d : ℚ))/2⌋ : ℤ) : ℚ) := by exact_mod_cast h
    _ ≤ ((d : ℚ))/2 := Int.floor_le _
  have h2 : 2 * (x : ℚ) ≤ (d : ℚ) := by linarith
  exact_mod_cast h2

/-- Every record built by one loop iteration has a duration of at least one
frame, and each side's transition window is nonnegative and at most half the
record's own duration. -/
lemma buildSegment_bounds (fps fallbackTransitionSeconds : ℚ)
    (prevSeg next : Option SegmentPlan) (prevPlaced : Option TimelineSegment)
    (s : SegmentPlan) :
    1 ≤ (buildSegment fps fallbackTransitionSeconds prevSeg next prevPlaced s).duration ∧
    0 ≤ (buildSegment fps fallbackTransitionSeconds prevSeg next prevPlaced s).transitionInFrames ∧
    2 * (buildSegment fps fallbackTransitionSeconds prevSeg next prevPlaced s).transitionInFrames ≤
      (buildSegment fps fallbackTransitionSeconds prevSeg next prevPlaced s).duration ∧
    0 ≤ (buildSegment fps fallbackTransitionSeconds prevSeg next prevPlaced s).transitionOutFrames ∧
    2 * (buildSegment fps fallbackTransitionSeconds prevSeg next prevPlaced s).transitionOutFrames ≤
      (buildSegment fps fallbackTransitionSeconds prevSeg next prevPlaced s).duration := by
  have hd1 : (1 : ℤ) ≤ max 1 (toFrames s.duration fps) := le_max_left _ _
  have hmaxT : (0 : ℚ) ≤ ((max 1 (toFrames s.duration fps) : ℤ) : ℚ) / 2 := by
    have h0 : (0 : ℚ) ≤ ((max 1 (toFrames s.duration fps) : ℤ) : ℚ) := by
      exact_mod_cast le_trans zero_le_one hd1
    linarith
  have hres := fun transition =>
    resolveTransitionDuration_bounds transition fps fallbackTransitionSeconds
      (((max 1 (toFrames s.duration fps) : ℤ) : ℚ) / 2) hmaxT
  have hres2 := fun transition =>
    two_mul_le_of_le_floor_half (hres transition).2
  cases prevPlaced <;>
    · refine ⟨hd1, ?_, ?_, ?_, ?_⟩ <;>
      · simp only [buildSegment]
        split
        all_goals
          first
          | exact (hres _).1
          | exact hres2 _
          | omega

/-- Every element of the loop output is the result of one loop iteration. -/
lemma mem_buildTimelineAux (fps fallbackTransitionSeconds : ℚ)
    (segs : List SegmentPlan) :
    ∀ (prevSeg : Option SegmentPlan) (prevPlaced : Option TimelineSegment)
      (q : TimelineSegment),
      q ∈ buildTimelineAux fps fallbackTransitionSeconds prevSeg prevPlaced segs →
      ∃ a b c s, q = buildSegment fps fallbackTransitionSeconds a b c s := by
  induction segs with
  | nil => intro _ _ q hq; simp [buildTimelineAux] at hq
  | cons s rest ih =>
    intro prevSeg prevPlaced q hq
    simp only [buildTimelineAux, List.mem_cons] at hq
    rcases hq with rfl | hq
    · exact ⟨prevSeg, rest.head?, prevPlaced, s, rfl⟩
    · exact ih _ _ q hq

/-- Every placed segment has `duration ≥ 1` and transition windows in
`[0, duration/2]`. -/
lemma buildTimeline_mem_bounds (segments : List SegmentPlan)
    (fps fallbackTransitionSeconds : ℚ) (q : TimelineSegment)
    (hq : q ∈ buildTimeline segments fps fallbackTransitionSeconds) :
    1 ≤ q.duration ∧
    0 ≤ q.transitionInFrames ∧ 2 * q.transitionInFrames ≤ q.duration ∧
    0 ≤ q.transitionOutFrames ∧ 2 * q.transitionOutFrames ≤ q.duration := by
  obtain ⟨a, b, c, s, rfl⟩ :=
    mem_buildTimelineAux fps fallbackTransitionSeconds segments none none q hq
  exact buildSegment_bounds fps fallbackTransitionSeconds a b c s

/-- C4 (amended): for every adjacent pair of placed segments the applied
overlap `max(placed[i].transitionOutFrames, placed[i+1].transitionInFrames)`
is at least 0 and at most `max(placed[i].durationFrames,
placed[i+1].durationFrames)/2`; each side's window is bounded by half of its
own segment's duration, but nothing bounds the overlap by the shorter
neighbor. -/
theorem buildTimeline_overlap_bounds (segments : List SegmentPlan)
    (fps fallbackTransitionSeconds : ℚ) (i : ℕ)
    (hi : i + 1 < (buildTimeline segments fps fallbackTransitionSeconds).length) :
    0 ≤ max
        ((buildTimeline segments fps fallbackTransitionSeconds).get
            ⟨i, Nat.lt_of_succ_lt hi⟩).transitionOutFrames
        ((buildTimeline segments fps fallbackTransitionSeconds).get
            ⟨i + 1, hi⟩).transitionInFrames ∧
    2 * max
        ((buildTimeline segments fps fallbackTransitionSeconds).get
            ⟨i, Nat.lt_of_succ_lt hi⟩).transitionOutFrames
        ((buildTimeline segments fps fallbackTransitionSeconds).get
            ⟨i + 1, hi⟩).transitionInFrames ≤
      max
        ((buildTimeline segments fps fallbackTransitionSeconds).get
            ⟨i, Nat.lt_of_succ_lt hi⟩).duration
        ((buildTimeline segments fps fallbackTransitionSeconds).get
            ⟨i + 1, hi⟩).duration := by
  have h1 := buildTimeline_mem_bounds segments fps fallbackTransitionSeconds _
    (List.get_mem (buildTimeline segments fps fallbackTransitionSeconds) i
      (Nat.lt_of_succ_lt hi))
  have h2 := buildTimeline_mem_bounds segments fps fallbackTransitionSeconds _
    (List.get_mem (buildTimeline segments fps fallbackTransitionSeconds) (i + 1) hi)
  constructor
  · exact le_max_of_le_left h1.2.2.2.1
  · rcases le_total
        ((buildTimeline segments fps fallbackTransitionSeconds).get
            ⟨i, Nat.lt_of_succ_lt hi⟩).transitionOutFrames
        ((buildTimeline segments fps fallbackTransitionSeconds).get
            ⟨i + 1, hi⟩).transitionInFrames with h | h
    · rw [max_eq_right h]
      exact le_trans h2.2.2.1 (le_max_right _ _)
    · rw [max_eq_left h]
      exact le_trans h1.2.2.2.2 (le_max_left _ _)

/-- Witness for C4 at a concrete two-segment timeline. -/
theorem buildTimeline_overlap_bounds_witness :
    0 ≤ max
        ((buildTimeline c1Segments 30 (1/2)).get ⟨0, by decide⟩).transitionOutFrames
        ((buildTimeline c1Segments 30 (1/2)).get ⟨1, by decide⟩).transitionInFrames ∧
    2 * max
        ((buildTimeline c1Segments 30 (1/2)).get ⟨0, by decide⟩).transitionOutFrames
        ((buildTimeline c1Segments 30 (1/2)).get ⟨1, by decide⟩).transitionInFrames ≤
      max ((buildTimeline c1Segments 30 (1/2)).get ⟨0, by decide⟩).duration
        ((buildTimeline c1Segments 30 (1/2)).get ⟨1, by decide⟩).duration :=
  buildTimeline_overlap_bounds c1Segments 30 (1/2) 0 (by decide)

/-- C4 (counterexample): a 10s segment with a 5s outgoing transition next to
a 1s segment yields overlap 150 at 30fps, far above
`min(300, 30)/2 = 15`. -/
theorem overlap_exceeds_min_half_counterexample :
    Option.map TimelineSegment.transitionOutFrames
        ((buildTimeline c4Segments 30 (3/4)).get? 0) = some 150 ∧
    Option.map TimelineSegment.transitionInFrames
        ((buildTimeline c4Segments 30 (3/4)).get? 1) = some 0 ∧
    Option.map TimelineSegment.duration
        ((buildTimeline c4Segments 30 (3/4)).get? 0) = some 300 ∧
    Option.map TimelineSegment.duration
        ((buildTimeline c4Segments 30 (3/4)).get? 1) = some 30 ∧
    ¬ (2 * max (150 : ℤ) 0 ≤ min 300 30) := by
  refine ⟨by decide, by decide, by decide, by decide, by decide⟩

/-- If the loop continues from a record with nonnegative start frame whose
outgoing window is within its duration, and every later record's incoming
window fits inside its predecessor's duration, all later start frames stay
nonnegative. -/
lemma nonneg_fromFrame_aux (fps fallbackTransitionSeconds : ℚ)
    (segs : List SegmentPlan) :
    ∀ (prevSeg : Option SegmentPlan) (p : TimelineSegment),
      0 ≤ p.fromFrame →
      p.transitionOutFrames ≤ p.duration →
      List.Chain (fun p q => q.transitionInFrames ≤ p.duration) p
        (buildTimelineAux fps fallbackTransitionSeconds prevSeg (some p) segs) →
      ∀ q ∈ buildTimelineAux fps fallbackTransitionSeconds prevSeg (some p) segs,
        0 ≤ q.fromFrame := by
  induction segs with
  | nil => intro _ _ _ _ _ q hq; simp [buildTimelineAux] at hq
  | cons s rest ih =>
    intro prevSeg p hp hout hchain q hq
    simp only [buildTimelineAux, List.mem_cons] at hq hchain
    rw [List.chain_cons] at hchain
    obtain ⟨hrel, hchain'⟩ := hchain
    have hfrom :
        0 ≤ (buildSegment fps fallbackTransitionSeconds prevSeg rest.head?
            (some p) s).fromFrame := by
      rw [buildSegment_fromFrame]
      have hmax : max p.transitionOutFrames
          (buildSegment fps fallbackTransitionSeconds prevSeg rest.head?
              (some p) s).transitionInFrames ≤ p.duration :=
        max_le hout hrel
      omega
    rcases hq with rfl | hq
    · exact hfrom
    · have hb := buildSegment_bounds fps fallbackTransitionSeconds prevSeg
        rest.head? (some p) s
      exact ih (some s) _ hfrom (by omega) hchain' q hq

/-- C5 (amended): every placed start frame is a nonnegative integer provided
each placed segment's incoming transition window is at most the preceding
placed segment's duration; without that side condition a start frame can be
negative (see the counterexample). -/
theorem buildTimeline_startFrame_nonneg (segments : List SegmentPlan)
    (fps fallbackTransitionSeconds : ℚ)
    (hin : List.Chain' (fun p q => q.transitionInFrames ≤ p.duration)
      (buildTimeline segments fps fallbackTransitionSeconds)) :
    ∀ q ∈ buildTimeline segments fps fallbackTransitionSeconds,
      0 ≤ q.fromFrame := by
  cases segments with
  | nil => intro q hq; simp [buildTimeline, buildTimelineAux] at hq
  | cons s rest =>
    intro q hq
    simp only [buildTimeline, buildTimelineAux, List.mem_cons] at hq hin
    have hchain : List.Chain (fun p q => q.transitionInFrames ≤ p.duration)
        (buildSegment fps fallbackTransitionSeconds none rest.head? none s)
        (buildTimelineAux fps fallbackTransitionSeconds (some s)
          (some (buildSegment fps fallbackTransitionSeconds none rest.head? none s))
          rest) := hin
    have hb := buildSegment_bounds fps fallbackTransitionSeconds none rest.head?
      none s
    have h0 : (0 : ℤ) ≤ (buildSegment fps fallbackTransitionSeconds none
        rest.head? none s).fromFrame := by
      rw [buildSegment_fromFrame_none]
    rcases hq with rfl | hq
    · exact h0
    · exact nonneg_fromFrame_aux fps fallbackTransitionSeconds rest (some s) _
        h0 (by omega) hchain q hq

/-- Witness for C5 at a concrete timeline satisfying the side condition. -/
theorem buildTimeline_startFrame_nonneg_witness :
    0 ≤ ((buildTimeline c5WitnessSegments 30 (1/2)).get ⟨1, by decide⟩).fromFrame :=
  buildTimeline_startFrame_nonneg c5WitnessSegments 30 (1/2)
    (by
      apply List.chain'_iff_get.mpr
      intro i hi
      have hlen : (buildTimeline c5WitnessSegments 30 (1/2)).length = 2 := by decide
      have hi0 : i = 0 := by omega
      subst hi0
      show (15 : ℤ) ≤ 60
      decide)
    _ (List.get_mem (buildTimeline c5WitnessSegments 30 (1/2)) 1 (by decide))

/-- C5 (counterexample): a single-frame segment followed by a segment whose
incoming transition requests 5 seconds at 30fps is placed at start frame
−149, so `startFrame ≥ 0` fails. -/
theorem startFrame_negative_counterexample :
    Option.map TimelineSegment.fromFrame
        ((buildTimeline c5Segments 30 (3/4)).get? 1) = some (-149) ∧
    ¬ (0 ≤ (-149 : ℤ)) := by
  refine ⟨by decide, by decide⟩

/-- A segment with `silenceAfter = false` is placed with a zero outgoing
window. -/
lemma buildSegment_out_zero (fps fallbackTransitionSeconds : ℚ)
    (prevSeg next : Option SegmentPlan) (prevPlaced : Option TimelineSegment)
    (s : SegmentPlan) (h : s.silenceAfter = some false) :
    (buildSegment fps fallbackTransitionSeconds prevSeg next prevPlaced s).transitionOutFrames = 0 := by
  cases prevPlaced <;> simp [buildSegment, h]

/-- A segment following one with `silenceAfter = false` is placed with a zero
incoming window. -/
lemma buildSegment_in_zero (fps fallbackTransitionSeconds : ℚ)
    (s0 : SegmentPlan) (next : Option SegmentPlan)
    (prevPlaced : Option TimelineSegment) (s : SegmentPlan)
    (h : s0.silenceAfter = some false) :
    (buildSegment fps fallbackTransitionSeconds (some s0) next prevPlaced s).transitionInFrames = 0 := by
  cases prevPlaced <;> simp [buildSegment, h]

/-- Indexed silence gating along the loop: if input segment `i` has
`silenceAfter = false`, output record `i` has a zero outgoing window and
output record `i+1` a zero incoming window. -/
lemma silence_gating_aux (fps fallbackTransitionSeconds : ℚ)
    (segs : List SegmentPlan) :
    ∀ (prevSeg : Option SegmentPlan) (prevPlaced : Option TimelineSegment)
      (i : ℕ) (s : SegmentPlan),
      segs.get? i = some s → s.silenceAfter = some false →
      (∀ p, (buildTimelineAux fps fallbackTransitionSeconds prevSeg prevPlaced
          segs).get? i = some p → p.transitionOutFrames = 0) ∧
      (∀ q, (buildTimelineAux fps fallbackTransitionSeconds prevSeg prevPlaced
          segs).get? (i + 1) = some q → q.transitionInFrames = 0) := by
  induction segs with
  | nil => intro _ _ i s hs _; simp at hs
  | cons s0 rest ih =>
    intro prevSeg prevPlaced i s hs hsil
    cases i with
    | zero =>
      have hs0 : s0 = s := by simpa using hs
      subst hs0
      constructor
      · intro p hp
        simp only [buildTimelineAux, List.get?_cons_zero, Option.some_inj] at hp
        subst hp
        exact buildSegment_out_zero fps fallbackTransitionSeconds prevSeg
          rest.head? prevPlaced s0 hsil
      · intro q hq
        simp only [buildTimelineAux, List.get?_cons_succ] at hq
        cases rest with
        | nil => simp [buildTimelineAux] at hq
        | cons r0 rest' =>
          simp only [buildTimelineAux, List.get?_cons_zero, Option.some_inj] at hq
          subst hq
          exact buildSegment_in_zero fps fallbackTransitionSeconds s0
            rest'.head? _ r0 hsil
    | succ j =>
      simp only [List.get?_cons_succ] at hs
      have h := ih (some s0)
        (some (buildSegment fps fallbackTransitionSeconds prevSeg rest.head?
          prevPlaced s0)) j s hs hsil
      constructor
      · intro p hp
        simp only [buildTimelineAux, List.get?_cons_succ] at hp
        exact h.1 p hp
      · intro q hq
        simp only [buildTimelineAux, List.get?_cons_succ] at hq
        exact h.2 q hq

/-- C6 (confirmed): if input segment `i` has `silenceAfter = false`, then
placed segment `i` has `transitionOutFrames = 0`, placed segment `i+1` has
`transitionInFrames = 0`, and hence the overlap between the two placed
segments is 0 — a hard cut. -/
theorem buildTimeline_silence_gating (segments : List SegmentPlan)
    (fps fallbackTransitionSeconds : ℚ) (i : ℕ) (s : SegmentPlan)
    (hs : segments.get? i = some s) (hsil : s.silenceAfter = some false) :
    (∀ p, (buildTimeline segments fps fallbackTransitionSeconds).get? i = some p →
      p.transitionOutFrames = 0) ∧
    (∀ q, (buildTimeline segments fps fallbackTransitionSeconds).get? (i + 1) = some q →
      q.transitionInFrames = 0) ∧
    (∀ p q, (buildTimeline segments fps fallbackTransitionSeconds).get? i = some p →
      (buildTimeline segments fps fallbackTransitionSeconds).get? (i + 1) = some q →
      max p.transitionOutFrames q.transitionInFrames = 0) := by
  have h := silence_gating_aux fps fallbackTransitionSeconds segments none none
    i s hs hsil
  refine ⟨h.1, h.2, ?_⟩
  intro p q hp hq
  rw [h.1 p hp, h.2 q hq]
  rfl

/-- Witness for C6: `silenceAfter = false` on the first concrete segment
forces both adjacent windows to zero although both sides request crossfades. -/
theorem buildTimeline_silence_gating_witness :
    ((buildTimeline c6Segments 30 (1/2)).get ⟨0, by decide⟩).transitionOutFrames = 0 ∧
    ((buildTimeline c6Segments 30 (1/2)).get ⟨1, by decide⟩).transitionInFrames = 0 :=
  ⟨(buildTimeline_silence_gating c6Segments 30 (1/2) 0 _ rfl rfl).1 _
      (List.get?_eq_get (by decide)),
   (buildTimeline_silence_gating c6Segments 30 (1/2) 0 _ rfl rfl).2.1 _
      (List.get?_eq_get (by decide))⟩

/-- C3 (amended): `resolveTransitionDuration` ignores the transition's type
entirely — a `cut` transition resolves by the same formula as any other type,
and only an absent transition resolves to 0 frames. -/
theorem resolveTransitionDuration_ignores_type (t : TransitionPlan)
    (ty : TransitionType) (fps fallbackSeconds maxDurationFrames : ℚ) :
    resolveTransitionDuration (some { t with type := ty }) fps fallbackSeconds
        maxDurationFrames
      = resolveTransitionDuration (some t) fps fallbackSeconds
          maxDurationFrames ∧
    resolveTransitionDuration none fps fallbackSeconds maxDurationFrames = 0 := by
  constructor
  · rfl
  · rfl

/-- C7 (confirmed): a `cut` transition yields the identity style at every
progress value, canvas size and phase, for any easing curve: no offset, no
scale change, no rotation, no blur, and an effective opacity multiplier
of 1. -/
theorem evaluateTransitionStyle_cut_identity (easeInOut : ℚ → ℚ)
    (t : TransitionPlan) (progress width height : ℚ) (phase : TransitionPhase)
    (hcut : t.type = TransitionType.cut) :
    evaluateTransitionStyle easeInOut (some t) progress width height phase =
      ({} : TransitionStyle) ∧
    (evaluateTransitionStyle easeInOut (some t) progress width height
        phase).effectiveOpacity = 1 ∧
    (evaluateTransitionStyle easeInOut (some t) progress width height
        phase).translateX = none ∧
    (evaluateTransitionStyle easeInOut (some t) progress width height
        phase).translateY = none ∧
    (evaluateTransitionStyle easeInOut (some t) progress width height
        phase).scale = none ∧
    (evaluateTransitionStyle easeInOut (some t) progress width height
        phase).rotate = none ∧
    (evaluateTransitionStyle easeInOut (some t) progress width height
        phase).blurRadius = none := by
  have h : evaluateTransitionStyle easeInOut (some t) progress width height
      phase = ({} : TransitionStyle) := by
    simp [evaluateTransitionStyle, hcut]
  refine ⟨h, ?_, ?_, ?_, ?_, ?_, ?_⟩ <;> (rw [h]; try rfl)

/-- Witness for C7 at a concrete cut transition and progress value. -/
theorem evaluateTransitionStyle_cut_identity_witness :
    evaluateTransitionStyle easeInOutModel (some cutDemo) (1/3) 1920 1080
        TransitionPhase.phaseIn = ({} : TransitionStyle) ∧
    (evaluateTransitionStyle easeInOutModel (some cutDemo) (1/3) 1920 1080
        TransitionPhase.phaseIn).effectiveOpacity = 1 ∧
    (evaluateTransitionStyle easeInOutModel (some cutDemo) (1/3) 1920 1080
        TransitionPhase.phaseIn).translateX = none ∧
    (evaluateTransitionStyle easeInOutModel (some cutDemo) (1/3) 1920 1080
        TransitionPhase.phaseIn).translateY = none ∧
    (evaluateTransitionStyle easeInOutModel (some cutDemo) (1/3) 1920 1080
        TransitionPhase.phaseIn).scale = none ∧
    (evaluateTransitionStyle easeInOutModel (some cutDemo) (1/3) 1920 1080
        TransitionPhase.phaseIn).rotate = none ∧
    (evaluateTransitionStyle easeInOutModel (some cutDemo) (1/3) 1920 1080
        TransitionPhase.phaseIn).blurRadius = none :=
  evaluateTransitionStyle_cut_identity easeInOutModel cutDemo (1/3) 1920 1080
    TransitionPhase.phaseIn rfl

/-- C8 (amended): for a `crossfade` transition and progress in `[0, 1]`, the
returned opacity is the eased progress in the entering phase and
`1 − ease(1 − progress)` in the exiting phase (the easing is applied to the
phase-normalized progress), for any easing curve. -/
theorem evaluateTransitionStyle_crossfade_opacity (easeInOut : ℚ → ℚ)
    (t : TransitionPlan) (progress width height : ℚ)
    (hty : t.type = TransitionType.crossfade)
    (h0 : 0 ≤ progress) (h1 : progress ≤ 1) :
    (evaluateTransitionStyle easeInOut (some t) progress width height
        TransitionPhase.phaseIn).opacity = some (easeInOut progress) ∧
    (evaluateTransitionStyle easeInOut (some t) progress width height
        TransitionPhase.phaseOut).opacity =
      some (1 - easeInOut (1 - progress)) := by
  have hc : clamp01 progress = progress := by
    unfold clamp01
    rw [max_eq_left h0, min_eq_left h1]
  have hc2 : clamp01 (1 - progress) = 1 - progress := by
    unfold clamp01
    rw [max_eq_left (by linarith), min_eq_left (by linarith)]
  constructor <;> simp [evaluateTransitionStyle, hty, hc, hc2]

/-- Witness for C8 at a concrete crossfade and progress 1/2. -/
theorem evaluateTransitionStyle_crossfade_opacity_witness :
    (evaluateTransitionStyle easeInOutModel (some crossfadeDemo) (1/2) 1920 1080
        TransitionPhase.phaseIn).opacity = some (easeInOutModel (1/2)) ∧
    (evaluateTransitionStyle easeInOutModel (some crossfadeDemo) (1/2) 1920 1080
        TransitionPhase.phaseOut).opacity =
      some (1 - easeInOutModel (1 - 1/2)) :=
  evaluateTransitionStyle_crossfade_opacity easeInOutModel crossfadeDemo (1/2)
    1920 1080 rfl (by decide) (by decide)

/-- C8 (counterexample): a transition typed `fadeCamera` — the normalized
fade token of the current `TransitionType` union — reaches no case of the
style switch: at progress 0 in the entering phase the engine returns the
identity style with effective opacity 1, while the eased progress is 0. -/
theorem fadeCamera_identity_counterexample :
    evaluateTransitionStyle easeInOutModel (some fadeCameraDemo) 0 1920 1080
        TransitionPhase.phaseIn = ({} : TransitionStyle) ∧
    (evaluateTransitionStyle easeInOutModel (some fadeCameraDemo) 0 1920 1080
        TransitionPhase.phaseIn).effectiveOpacity = 1 ∧
    easeInOutModel (clamp01 0) = 0 ∧
    (1 : ℚ) ≠ 0 := by
  refine ⟨by decide, by decide, by decide, by decide⟩

/-- C9 (confirmed): the volume envelope of every scheduled sound effect is
clamped to `dbToGain(−6) = 10^(−6/20)` at every frame offset, for every
event, audio configuration and frame rate. -/
theorem buildVolumeEnvelope_gain_ceiling (event : SfxEvent)
    (audioConfig : RuntimeAudioConfig) (fps frame : ℝ) :
    buildVolumeEnvelope event audioConfig fps frame ≤ dbToGain (-6) ∧
    dbToGain (-6) = (10 : ℝ) ^ ((-6 : ℝ) / 20) := by
  constructor
  · simp only [buildVolumeEnvelope]
    exact min_le_right _ _
  · rfl

/-- C10 (confirmed): with no explicit `gain`, the legacy conversion
`gainDb = 20·log10(volume)` is applied exactly when `volume` is present and
strictly positive; for `volume ≤ 0` or absent, `gainDb` stays `none`, so the
envelope's base falls back to the configured `sfxBaseGainDb`. -/
theorem eventFromHighlight_legacy_volume_guard (highlight : HighlightPlan)
    (fps : ℝ) (hg : highlight.gain = none) :
    ((eventFromHighlight highlight fps).gainDb ≠ none ↔
      ∃ v, highlight.volume = some v ∧ 0 < v) ∧
    (∀ v, highlight.volume = some v → 0 < v →
      (eventFromHighlight highlight fps).gainDb = some (20 * Real.logb 10 v)) ∧
    (∀ v, highlight.volume = some v → v ≤ 0 →
      (eventFromHighlight highlight fps).gainDb = none) ∧
    (highlight.volume = none → (eventFromHighlight highlight fps).gainDb = none) ∧
    (∀ (audioConfig : RuntimeAudioConfig) (v : ℝ),
      highlight.volume = some v → v ≤ 0 →
      ((eventFromHighlight highlight fps).gainDb).getD audioConfig.sfxBaseGainDb =
        audioConfig.sfxBaseGainDb) := by
  have hgdb : (eventFromHighlight highlight fps).gainDb =
      (match highlight.volume with
       | some v => if 0 < v then some (20 * Real.logb 10 v) else none
       | none => none) := by
    simp [eventFromHighlight, hg]
  refine ⟨?_, ?_, ?_, ?_, ?_⟩
  · constructor
    · intro hne
      rw [hgdb] at hne
      cases hv : highlight.volume with
      | none => rw [hv] at hne; simp at hne
      | some v =>
        rw [hv] at hne
        by_cases hpos : 0 < v
        · exact ⟨v, rfl, hpos⟩
        · simp [hpos] at hne
    · rintro ⟨v, hv, hpos⟩
      rw [hgdb, hv]
      simp [hpos]
  · intro v hv hpos
    rw [hgdb, hv]
    simp [hpos]
  · intro v hv hnpos
    rw [hgdb, hv]
    simp [not_lt.mpr hnpos]
  · intro hv
    rw [hgdb, hv]
  · intro audioConfig v hv hnpos
    rw [hgdb, hv]
    simp [not_lt.mpr hnpos]

/-- Witness for C10: a highlight with legacy `volume = 0` and no explicit
gain keeps `gainDb = none`. -/
theorem eventFromHighlight_legacy_volume_guard_witness :
    (eventFromHighlight c10Highlight 30).gainDb = none :=
  (eventFromHighlight_legacy_volume_guard c10Highlight 30 rfl).2.2.1 0 rfl le_rfl

end VideoAutomation
